import Mathlib

/-!
# Smart Attendance System — verification of the backend handlers

Shallow embedding of `src/server/server.js` (an Express + Supabase backend).
The database tables `students` and `attendance` are modelled as Lean lists;
each HTTP handler becomes a pure function from the request and the current
table contents to a response and the new table contents.  Storage failures
(a Supabase call returning an `error`) are modelled by explicit Boolean
oracles, one per storage round trip, since the handler branches on them.

Timestamps are epoch milliseconds (`Int`); ISO-8601 string comparison on
the wire agrees with numeric comparison of these instants.  JSON values
appearing in request bodies are modelled by `JVal`, with JavaScript
truthiness made explicit where the code branches on it.
-/

namespace SmartAttendance

/-- A JSON scalar as it can appear in the `confidence` field of a request
body: `null`, a number, or a string. -/
inductive JVal where
  | jnull : JVal
  | num : Rat → JVal
  | str : String → JVal
deriving DecidableEq, Repr

/-- JavaScript falsiness of a `JVal`: `null`, `0` and `""` are falsy. -/
def JVal.falsy : JVal → Bool
  | .jnull => true
  | .num q => q == 0
  | .str s => s == ""

/-- JavaScript falsiness of an optional string field of a JSON body:
an absent field (`undefined`) and the empty string are falsy. -/
def strFalsy : Option String → Bool
  | none => true
  | some s => s == ""

/-- A row of the `attendance` table (`AttendanceRecord` of the spec).
`confidence` is `none` when the column is SQL `null`. -/
structure AttendanceRecord where
  student_id : String
  student_name : String
  room_id : String
  confidence : Option JVal
  timestamp : Int
deriving DecidableEq, Repr

/-- A row of the `students` table. -/
structure Student where
  id : String
  name : String
  email : String
  is_trained : Bool
deriving DecidableEq, Repr

/-- The body of a `POST /api/attendance/confirm` request; `none` marks an
absent field. -/
structure ConfirmRequest where
  student_id : Option String
  student_name : Option String
  room_id : Option String
  confidence : Option JVal
deriving DecidableEq, Repr

/-- One storage round trip performed by a handler. -/
inductive StorageOp where
  | read : StorageOp
  | write : StorageOp
deriving DecidableEq, Repr

/-- The response of the confirm handler, by status code. -/
inductive ConfirmResponse where
  | validationError : ConfirmResponse
  | duplicate : AttendanceRecord → ConfirmResponse
  | storageError : ConfirmResponse
  | created : AttendanceRecord → ConfirmResponse
deriving DecidableEq, Repr

/-- HTTP status code of a confirm response (`server.js` lines 177, 198,
218, 222). -/
def ConfirmResponse.status : ConfirmResponse → Nat
  | .validationError => 400
  | .duplicate _ => 409
  | .storageError => 500
  | .created _ => 201

/-- The validation guard of the confirm handler (line 175):
`!student_id || !student_name || !room_id`. -/
def missingFields (req : ConfirmRequest) : Bool :=
  strFalsy req.student_id || strFalsy req.student_name || strFalsy req.room_id

/-- `confidence: confidence || null` (line 211): a falsy confidence value
is stored as SQL `null`. -/
def confidenceOrNull (confidence : Option JVal) : Option JVal :=
  match confidence with
  | none => none
  | some v => if v.falsy then none else some v

/-- JavaScript falsiness of the optional `confidence` field as a whole:
absent, `null`, `0`, or `""`. -/
def confidenceFalsy (confidence : Option JVal) : Bool :=
  match confidence with
  | none => true
  | some v => v.falsy

/-- Row filter of the duplicate check: `.eq('student_id', …).eq('room_id', …)`. -/
def matchesKey (r : AttendanceRecord) (sid rid : String) : Bool :=
  r.student_id == sid && r.room_id == rid

/-- `order('timestamp', { ascending: false })`: newest first. -/
def tsDesc (a b : AttendanceRecord) : Bool :=
  decide (b.timestamp ≤ a.timestamp)

/-- The duplicate-check query (lines 185–192): select matching rows with
`timestamp >= windowStart`, order by timestamp descending, `limit(1)`. -/
def recentQuery (db : List AttendanceRecord) (sid rid : String)
    (windowStart : Int) : List AttendanceRecord :=
  ((db.filter fun r =>
    matchesKey r sid rid && decide (windowStart ≤ r.timestamp)).mergeSort tsDesc).take 1

/-- The row inserted on success (lines 207–213). -/
def mkRecord (sid sname rid : String) (confidence : Option JVal)
    (now : Int) : AttendanceRecord :=
  { student_id := sid, student_name := sname, room_id := rid,
    confidence := confidenceOrNull confidence, timestamp := now }

/-- The insert step (lines 205–225): on a storage error return 500 and
leave the table unchanged, otherwise append the new row and return it. -/
def insertStep (sid sname rid : String) (confidence : Option JVal)
    (now : Int) (db : List AttendanceRecord) (insertFails : Bool)
    (ops : List StorageOp) :
    ConfirmResponse × List AttendanceRecord × List StorageOp :=
  if insertFails then
    (.storageError, db, ops ++ [.write])
  else
    let newRec := mkRecord sid sname rid confidence now
    (.created newRec, db ++ [newRec], ops ++ [.write])

/-- The `POST /api/attendance/confirm` handler (lines 164–230).
`now` is the call instant, `db` the `attendance` table; `checkFails` and
`insertFails` say whether the duplicate-check read and the insert fail.
Returns the response, the new table, and the storage round trips made.
Note the code's handling of a failed check (lines 194–196): the error is
only logged and control falls through to the insert. -/
def confirm (req : ConfirmRequest) (now : Int) (db : List AttendanceRecord)
    (checkFails insertFails : Bool) :
    ConfirmResponse × List AttendanceRecord × List StorageOp :=
  if missingFields req then
    (.validationError, db, [])
  else
    let sid := req.student_id.getD ""
    let sname := req.student_name.getD ""
    let rid := req.room_id.getD ""
    let fiveMinutesAgo := now - 5 * 60 * 1000
    if checkFails then
      insertStep sid sname rid req.confidence now db insertFails [.read]
    else
      match recentQuery db sid rid fiveMinutesAgo with
      | last :: _ => (.duplicate last, db, [.read])
      | [] => insertStep sid sname rid req.confidence now db insertFails [.read]

/-- The response of the mark-trained handler: 200 with `data[0]` (which is
`undefined`, i.e. `none`, when no row matched) or 500 on a storage error. -/
inductive MarkResponse where
  | ok : Option Student → MarkResponse
  | storageFailure : MarkResponse
deriving DecidableEq, Repr

/-- HTTP status code of a mark-trained response. -/
def MarkResponse.status : MarkResponse → Nat
  | .ok _ => 200
  | .storageFailure => 500

/-- Effect of `update({ is_trained: true }).eq('id', id)` on the
`students` table (lines 119–123). -/
def markTrainedDb (db : List Student) (id : String) : List Student :=
  db.map fun s => if s.id == id then { s with is_trained := true } else s

/-- The rows returned by `.select()` after the update: the updated rows. -/
def markTrainedRows (db : List Student) (id : String) : List Student :=
  (markTrainedDb db id).filter fun s => s.id == id

/-- The `POST /api/students/:id/trained` handler (lines 114–136). -/
def markTrained (db : List Student) (id : String) (updateFails : Bool) :
    MarkResponse × List Student :=
  if updateFails then
    (.storageFailure, db)
  else
    (.ok ((markTrainedRows db id).head?), markTrainedDb db id)

/-- `order('name', { ascending: true })`. -/
def nameAsc (a b : Student) : Bool :=
  decide (a.name ≤ b.name)

/-- The `GET /api/students` query (lines 36–39): all students ordered by
name ascending. -/
def getStudents (db : List Student) : List Student :=
  db.mergeSort nameAsc

/-- The `GET /api/students/untrained` query (lines 59–63): students with
`is_trained = false`, ordered by name ascending. -/
def getUntrainedStudents (db : List Student) : List Student :=
  (db.filter fun s => s.is_trained == false).mergeSort nameAsc

/-- Express query-string parameters are strings; `if (param)` applies a
filter only when the parameter is truthy (present and non-empty). -/
def suppliedParam (p : Option String) : Option String :=
  match p with
  | none => none
  | some s => if s == "" then none else some s

/-- Number of milliseconds from local start of day to `23:59:59.999`
(`setHours(23, 59, 59, 999)` against `setHours(0, 0, 0, 0)`). -/
def endOfDayOffset : Int := 86399999

/-- The row filter of `GET /api/attendance` (lines 243–254): equality on
`student_id` and `room_id` when supplied, and, when a date is supplied,
`dayStart ≤ timestamp ≤ dayStart + 86399999` where `dayStart` is the local
midnight of the date (UTC midnight under a UTC-aligned local day). -/
def attendanceMatches (r : AttendanceRecord) (sid rid : Option String)
    (dayStart : Option Int) : Bool :=
  (match sid with
   | none => true
   | some s => r.student_id == s) &&
  (match rid with
   | none => true
   | some s => r.room_id == s) &&
  (match dayStart with
   | none => true
   | some d => decide (d ≤ r.timestamp) && decide (r.timestamp ≤ d + endOfDayOffset))

/-- The `GET /api/attendance` handler's successful query (lines 233–264):
filtered rows ordered by timestamp descending.  `date` is passed as the
already-parsed local midnight instant (`none` when absent). -/
def getAttendance (db : List AttendanceRecord) (sid rid : Option String)
    (dayStart : Option Int) : List AttendanceRecord :=
  (db.filter fun r =>
    attendanceMatches r (suppliedParam sid) (suppliedParam rid) dayStart).mergeSort tsDesc

/-! ## Helper lemmas -/

theorem mem_recentQuery {db : List AttendanceRecord} {sid rid : String}
    {w : Int} {x : AttendanceRecord} (h : x ∈ recentQuery db sid rid w) :
    x ∈ db ∧ matchesKey x sid rid = true ∧ w ≤ x.timestamp := by
  unfold recentQuery at h
  have h1 := List.take_subset 1 _ h
  rw [List.mem_mergeSort] at h1
  simpa [List.mem_filter] using h1

theorem recentQuery_eq_nil_iff {db : List AttendanceRecord} {sid rid : String}
    {w : Int} :
    recentQuery db sid rid w = [] ↔
      ∀ r ∈ db, matchesKey r sid rid = true → r.timestamp < w := by
  unfold recentQuery
  constructor
  · intro h r hr hm
    by_contra hlt
    push_neg at hlt
    have hf : r ∈ db.filter fun r =>
        matchesKey r sid rid && decide (w ≤ r.timestamp) := by
      simp [List.mem_filter, hr, hm, hlt]
    have hms : r ∈ (db.filter fun r =>
        matchesKey r sid rid && decide (w ≤ r.timestamp)).mergeSort tsDesc := by
      rw [List.mem_mergeSort]; exact hf
    rcases hx : (db.filter fun r =>
        matchesKey r sid rid && decide (w ≤ r.timestamp)).mergeSort tsDesc with _ | ⟨a, l⟩
    · rw [hx] at hms; exact absurd hms (List.not_mem_nil r)
    · rw [hx] at h; simp at h
  · intro h
    have hf : db.filter (fun r =>
        matchesKey r sid rid && decide (w ≤ r.timestamp)) = [] := by
      rw [List.filter_eq_nil_iff]
      intro r hr
      simp only [Bool.and_eq_true, decide_eq_true_eq, not_and]
      intro hm hw
      exact absurd hw (not_le.mpr (h r hr hm))
    rw [hf]
    simp

theorem recentQuery_ne_nil {db : List AttendanceRecord} {sid rid : String}
    {w : Int} {x : AttendanceRecord} (hx : x ∈ db)
    (hm : matchesKey x sid rid = true) (hw : w ≤ x.timestamp) :
    recentQuery db sid rid w ≠ [] := by
  intro h
  rw [recentQuery_eq_nil_iff] at h
  exact absurd hw (not_le.mpr (h x hx hm))

/-- Evaluating `confirm` on a valid request with a working storage layer and
no matching record inside the window: the duplicate check comes back empty
and the handler proceeds to the insert step. -/
theorem confirm_fresh_eq (req : ConfirmRequest) (now : Int)
    (db : List AttendanceRecord) (insertFails : Bool)
    (hv : missingFields req = false)
    (hfresh : ∀ r ∈ db,
      matchesKey r (req.student_id.getD "") (req.room_id.getD "") = true →
      r.timestamp < now - 5 * 60 * 1000) :
    confirm req now db false insertFails =
      insertStep (req.student_id.getD "") (req.student_name.getD "")
        (req.room_id.getD "") req.confidence now db insertFails [.read] := by
  have hq : recentQuery db (req.student_id.getD "") (req.room_id.getD "")
      (now - 5 * 60 * 1000) = [] := recentQuery_eq_nil_iff.mpr hfresh
  have hq' : recentQuery db (req.student_id.getD "") (req.room_id.getD "")
      (now - 300000) = [] := by norm_num at hq; exact hq
  simp [confirm, hv, hq']

/-- Inversion: a 201 answer of `confirm` (working storage) means the request
was valid, the window was empty, and the call appended exactly the new row. -/
theorem confirm_status_201_inv (req : ConfirmRequest) (now : Int)
    (db : List AttendanceRecord)
    (h : (confirm req now db false false).1.status = 201) :
    missingFields req = false ∧
    recentQuery db (req.student_id.getD "") (req.room_id.getD "")
      (now - 300000) = [] ∧
    confirm req now db false false =
      (.created (mkRecord (req.student_id.getD "") (req.student_name.getD "")
        (req.room_id.getD "") req.confidence now),
       db ++ [mkRecord (req.student_id.getD "") (req.student_name.getD "")
        (req.room_id.getD "") req.confidence now],
       [.read, .write]) := by
  by_cases hv : missingFields req
  · simp [confirm, hv, ConfirmResponse.status] at h
  · rcases hq : recentQuery db (req.student_id.getD "") (req.room_id.getD "")
        (now - 300000) with _ | ⟨a, l⟩
    · refine ⟨by simp [hv], rfl, ?_⟩
      simp [confirm, hv, hq, insertStep, mkRecord]
    · simp [confirm, hv, hq, ConfirmResponse.status] at h

/-- Flipping `is_trained` is pointwise idempotent on the table. -/
theorem markTrainedDb_idem (db : List Student) (id : String) :
    markTrainedDb (markTrainedDb db id) id = markTrainedDb db id := by
  unfold markTrainedDb
  rw [List.map_map]
  apply List.map_congr_left
  intro s _
  by_cases h : s.id = id <;> simp [h]

theorem markTrainedDb_eq_of_not_mem (db : List Student) (id : String)
    (h : ∀ s ∈ db, s.id ≠ id) :
    markTrainedDb db id = db := by
  unfold markTrainedDb
  conv_rhs => rw [← List.map_id db]
  apply List.map_congr_left
  intro s hs
  simp [h s hs]

theorem confidenceOrNull_eq_none {c : Option JVal}
    (h : confidenceFalsy c = true) : confidenceOrNull c = none := by
  cases c with
  | none => rfl
  | some v =>
    simp only [confidenceFalsy] at h
    simp [confidenceOrNull, h]

/-- Inversion: a `created` answer of `confirm` means the returned row is the
freshly built record and the table was extended by exactly that row. -/
theorem confirm_created_inv (req : ConfirmRequest) (now : Int)
    (db : List AttendanceRecord) (checkFails insertFails : Bool)
    (r : AttendanceRecord)
    (hres : (confirm req now db checkFails insertFails).1 = .created r) :
    r = mkRecord (req.student_id.getD "") (req.student_name.getD "")
      (req.room_id.getD "") req.confidence now ∧
    (confirm req now db checkFails insertFails).2.1 = db ++ [r] := by
  rcases hv : missingFields req with _ | _
  · cases checkFails with
    | true =>
      cases insertFails with
      | true => simp [confirm, hv, insertStep] at hres
      | false =>
        have heval : confirm req now db true false =
            (.created (mkRecord (req.student_id.getD "")
              (req.student_name.getD "") (req.room_id.getD "")
              req.confidence now),
             db ++ [mkRecord (req.student_id.getD "")
              (req.student_name.getD "") (req.room_id.getD "")
              req.confidence now],
             [.read, .write]) := by
          simp [confirm, hv, insertStep]
        rw [heval] at hres
        simp only [ConfirmResponse.created.injEq] at hres
        exact ⟨hres.symm, by rw [heval, ← hres]⟩
    | false =>
      rcases hq : recentQuery db (req.student_id.getD "") (req.room_id.getD "")
          (now - 300000) with _ | ⟨a, l⟩
      · cases insertFails with
        | true => simp [confirm, hv, hq, insertStep] at hres
        | false =>
          have heval : confirm req now db false false =
              (.created (mkRecord (req.student_id.getD "")
                (req.student_name.getD "") (req.room_id.getD "")
                req.confidence now),
               db ++ [mkRecord (req.student_id.getD "")
                (req.student_name.getD "") (req.room_id.getD "")
                req.confidence now],
               [.read, .write]) := by
            simp [confirm, hv, hq, insertStep]
          rw [heval] at hres
          simp only [ConfirmResponse.created.injEq] at hres
          exact ⟨hres.symm, by rw [heval, ← hres]⟩
      · simp [confirm, hv, hq] at hres
  · simp [confirm, hv] at hres

theorem tsDesc_trans (a b c : AttendanceRecord) (h1 : tsDesc a b)
    (h2 : tsDesc b c) : tsDesc a c := by
  simp only [tsDesc, decide_eq_true_eq] at h1 h2 ⊢
  exact le_trans h2 h1

theorem tsDesc_total (a b : AttendanceRecord) : tsDesc a b || tsDesc b a := by
  simp only [tsDesc, Bool.or_eq_true, decide_eq_true_eq]
  exact le_total b.timestamp a.timestamp

theorem nameAsc_trans (a b c : Student) (h1 : nameAsc a b) (h2 : nameAsc b c) :
    nameAsc a c := by
  simp only [nameAsc, decide_eq_true_eq] at h1 h2 ⊢
  exact le_trans h1 h2

theorem nameAsc_total (a b : Student) : nameAsc a b || nameAsc b a := by
  simp only [nameAsc, Bool.or_eq_true, decide_eq_true_eq]
  exact le_total a.name b.name

/-! ## Claim theorems -/

/-- C4.  A `/attendance/confirm` request with a missing or empty required
field (`student_id`, `student_name`, or `room_id`) is always answered with
the 400 validation error — never a 500 and never a silent 201 success —
regardless of the storage layer's behaviour. -/
theorem confirm_missing_field_always_400 (req : ConfirmRequest) (now : Int)
    (db : List AttendanceRecord) (checkFails insertFails : Bool)
    (h : missingFields req = true) :
    (confirm req now db checkFails insertFails).1 = .validationError ∧
    (confirm req now db checkFails insertFails).1.status = 400 ∧
    (confirm req now db checkFails insertFails).1.status ≠ 500 ∧
    ∀ r, (confirm req now db checkFails insertFails).1 ≠ .created r := by
  simp [confirm, h, ConfirmResponse.status]

/-- Witness for C4: omitting `room_id` yields the 400 validation error. -/
theorem confirm_missing_field_always_400_witness :
    missingFields ⟨some "S1", some "Alice", none, none⟩ = true ∧
    (confirm ⟨some "S1", some "Alice", none, none⟩ 0 [] false false).1.status
      = 400 :=
  ⟨by decide,
   (confirm_missing_field_always_400 ⟨some "S1", some "Alice", none, none⟩
     0 [] false false (by decide)).2.1⟩

/-- C10.  Validation precedes every storage access: a request rejected for a
missing field performs zero storage reads and zero writes, and leaves the
attendance table unchanged. -/
theorem confirm_validation_failure_no_storage_ops (req : ConfirmRequest)
    (now : Int) (db : List AttendanceRecord) (checkFails insertFails : Bool)
    (h : missingFields req = true) :
    (confirm req now db checkFails insertFails).2.1 = db ∧
    (confirm req now db checkFails insertFails).2.2 = [] := by
  simp [confirm, h]

/-- Witness for C10: the rejected request with a missing `room_id` touches
no storage and changes nothing. -/
theorem confirm_validation_failure_no_storage_ops_witness :
    missingFields ⟨some "S1", some "Alice", none, none⟩ = true ∧
    (confirm ⟨some "S1", some "Alice", none, none⟩ 7 [] true true).2.2 = [] :=
  ⟨by decide,
   (confirm_validation_failure_no_storage_ops ⟨some "S1", some "Alice", none,
     none⟩ 7 [] true true (by decide)).2⟩

/-- C6.  `markTrained` is idempotent: a second call on the same id leaves
the table exactly as the first call did, answers 200 with no error, and
every row with that id has `is_trained = true` afterwards. -/
theorem markTrained_idempotent (db : List Student) (id : String) :
    (markTrained (markTrained db id false).2 id false).2 =
      (markTrained db id false).2 ∧
    (markTrained (markTrained db id false).2 id false).1.status = 200 ∧
    (markTrained (markTrained db id false).2 id false).1 ≠ .storageFailure ∧
    ∀ s ∈ (markTrained db id false).2, s.id = id → s.is_trained = true := by
  refine ⟨?_, rfl, by simp [markTrained], ?_⟩
  · simp [markTrained, markTrainedDb_idem]
  · intro s hs hid
    have hdb : (markTrained db id false).2 = markTrainedDb db id := by
      simp [markTrained]
    rw [hdb] at hs
    unfold markTrainedDb at hs
    rw [List.mem_map] at hs
    obtain ⟨t, _, ht⟩ := hs
    by_cases h : t.id = id
    · rw [← ht]; simp [h]
    · exfalso
      rw [← ht] at hid
      simp [h] at hid

/-- C7.  An update against an id that matches no stored row is a success
with an empty payload: `markTrained` on an unknown student answers 200 with
`student` undefined, updates zero rows, and produces no not-found error. -/
theorem markTrained_unknown_id_success_empty (db : List Student) (id : String)
    (h : ∀ s ∈ db, s.id ≠ id) :
    (markTrained db id false).1 = .ok none ∧
    (markTrained db id false).1.status = 200 ∧
    (markTrained db id false).2 = db := by
  have hdb := markTrainedDb_eq_of_not_mem db id h
  have hrows : markTrainedRows db id = [] := by
    unfold markTrainedRows
    rw [hdb, List.filter_eq_nil_iff]
    intro s hs
    simp [h s hs]
  refine ⟨?_, rfl, ?_⟩ <;> simp [markTrained, hrows, hdb]

/-- Witness for C7: marking the unknown id `"S9"` in a one-student table. -/
theorem markTrained_unknown_id_success_empty_witness :
    (∀ s ∈ [Student.mk "S1" "Alice" "a@x" false], s.id ≠ "S9") ∧
    (markTrained [Student.mk "S1" "Alice" "a@x" false] "S9" false).1
      = .ok none :=
  ⟨by decide,
   (markTrained_unknown_id_success_empty [Student.mk "S1" "Alice" "a@x" false]
     "S9" (by decide)).1⟩

/-- C9.  `confidence: confidence || null`: when the confidence field of a
confirmation request is falsy (absent, `null`, `0`, or `""`), the stored
AttendanceRecord has `confidence = null`; in particular a supplied
confidence of exactly `0` is recorded as `null`. -/
theorem confirm_falsy_confidence_stored_null (req : ConfirmRequest)
    (now : Int) (db : List AttendanceRecord) (checkFails insertFails : Bool)
    (r : AttendanceRecord)
    (hc : confidenceFalsy req.confidence = true)
    (hres : (confirm req now db checkFails insertFails).1 = .created r) :
    r.confidence = none ∧
    (confirm req now db checkFails insertFails).2.1 = db ++ [r] := by
  obtain ⟨hr, hdb⟩ :=
    confirm_created_inv req now db checkFails insertFails r hres
  refine ⟨?_, hdb⟩
  rw [hr]
  simp [mkRecord, confidenceOrNull_eq_none hc]

/-- Witness for C9: a request carrying `confidence = 0` produces a stored
record whose confidence is `null`. -/
theorem confirm_falsy_confidence_stored_null_witness :
    confidenceFalsy (some (JVal.num 0)) = true ∧
    (mkRecord "S1" "Alice" "R1" (some (JVal.num 0)) 0).confidence = none :=
  ⟨rfl,
   (confirm_falsy_confidence_stored_null
     ⟨some "S1", some "Alice", some "R1", some (JVal.num 0)⟩ 0 [] false false
     (mkRecord "S1" "Alice" "R1" (some (JVal.num 0)) 0) rfl
     (by simp [confirm, missingFields, strFalsy, recentQuery, insertStep])).1⟩

/-- C5.  The date filter of `GET /api/attendance` keeps exactly the records
whose timestamp lies in the inclusive range
`[dayStart, dayStart + 86399999]`, i.e. `[d 00:00:00.000, d 23:59:59.999]`
of a UTC-aligned local day `d`; so a record 60 s before the end of the day
is returned and a record 60 s after the start of the next day is not. -/
theorem getAttendance_date_range_membership (db : List AttendanceRecord)
    (d : Int) (r : AttendanceRecord) :
    r ∈ getAttendance db none none (some d) ↔
      r ∈ db ∧ d ≤ r.timestamp ∧ r.timestamp ≤ d + 86399999 := by
  unfold getAttendance
  rw [List.mem_mergeSort, List.mem_filter]
  simp [attendanceMatches, suppliedParam, endOfDayOffset, and_assoc]

/-- C8.  The query surfaces: an attendance query returns exactly the records
matching each supplied equality filter, ordered by timestamp descending
(newest first); the student listing is ordered by name ascending and is a
permutation of the table; the untrained listing contains exactly the
students with `is_trained = false`, ordered by name ascending. -/
theorem query_surfaces_filter_and_order (adb : List AttendanceRecord)
    (sdb : List Student) (sid rid : String)
    (hsid : sid ≠ "") (hrid : rid ≠ "") :
    (∀ r, r ∈ getAttendance adb (some sid) (some rid) none ↔
       r ∈ adb ∧ r.student_id = sid ∧ r.room_id = rid) ∧
    (getAttendance adb (some sid) (some rid) none).Pairwise
      (fun a b => b.timestamp ≤ a.timestamp) ∧
    (getStudents sdb).Pairwise (fun a b => a.name ≤ b.name) ∧
    List.Perm (getStudents sdb) sdb ∧
    (∀ s, s ∈ getUntrainedStudents sdb ↔ s ∈ sdb ∧ s.is_trained = false) ∧
    (getUntrainedStudents sdb).Pairwise (fun a b => a.name ≤ b.name) := by
  refine ⟨?_, ?_, ?_, ?_, ?_, ?_⟩
  · intro r
    unfold getAttendance
    rw [List.mem_mergeSort, List.mem_filter]
    simp [attendanceMatches, suppliedParam, hsid, hrid, and_assoc]
  · have hs := List.sorted_mergeSort tsDesc_trans tsDesc_total
      (adb.filter fun r =>
        attendanceMatches r (suppliedParam (some sid))
          (suppliedParam (some rid)) none)
    unfold getAttendance
    exact hs.imp (by simp only [tsDesc, decide_eq_true_eq]; exact fun h => h)
  · have hs := List.sorted_mergeSort nameAsc_trans nameAsc_total sdb
    unfold getStudents
    exact hs.imp (by simp only [nameAsc, decide_eq_true_eq]; exact fun h => h)
  · exact List.mergeSort_perm sdb nameAsc
  · intro s
    unfold getUntrainedStudents
    rw [List.mem_mergeSort, List.mem_filter]
    simp
  · have hs := List.sorted_mergeSort nameAsc_trans nameAsc_total
      (sdb.filter fun s => s.is_trained == false)
    unfold getUntrainedStudents
    exact hs.imp (by simp only [nameAsc, decide_eq_true_eq]; exact fun h => h)

/-- Witness for C8 at a concrete table: the student listing of a one-row
table is a permutation of that table, under non-empty filter values. -/
theorem query_surfaces_filter_and_order_witness :
    ("S1" : String) ≠ "" ∧
    List.Perm (getStudents [Student.mk "S1" "Alice" "a@x" false])
      [Student.mk "S1" "Alice" "a@x" false] :=
  ⟨by decide,
   (query_surfaces_filter_and_order [] [Student.mk "S1" "Alice" "a@x" false]
     "S1" "R1" (by decide) (by decide)).2.2.2.1⟩

/-- Counterexample to C1 as stated: two valid confirmations for the same
`(student_id, room_id)` issued exactly 5 minutes (300000 ms) apart do NOT
both succeed.  The duplicate check uses `gte` — `timestamp >= now − 5 min`,
inclusive — so the first record, written at instant 0, is still inside the
window of the second call at instant 300000, which is rejected with 409. -/
theorem confirm_pair_exactly_five_minutes_second_rejected :
    (confirm ⟨some "S1", some "Alice", some "R1", none⟩ 0 []
      false false).1.status = 201 ∧
    (confirm ⟨some "S1", some "Alice", some "R1", none⟩ 300000
      ((confirm ⟨some "S1", some "Alice", some "R1", none⟩ 0 []
        false false).2.1) false false).1.status = 409 := by
  have h1 : confirm ⟨some "S1", some "Alice", some "R1", none⟩ 0 []
      false false =
      (.created (mkRecord "S1" "Alice" "R1" none 0),
       [mkRecord "S1" "Alice" "R1" none 0], [.read, .write]) := by
    simp [confirm, missingFields, strFalsy, recentQuery, insertStep,
      mkRecord]
  refine ⟨by rw [h1]; rfl, ?_⟩
  rw [h1]
  have hq : recentQuery [mkRecord "S1" "Alice" "R1" none 0] "S1" "R1" 0 =
      [mkRecord "S1" "Alice" "R1" none 0] := by
    simp [recentQuery, mkRecord, matchesKey]
  simp [confirm, missingFields, strFalsy, hq, ConfirmResponse.status]

/-- C1 (amended).  A valid confirmation with no record for the same
`(student_id, room_id)` inside the inclusive window `timestamp ≥ now − 5 min`
appends exactly one new AttendanceRecord with `timestamp = now` and answers
201 with that record; and two confirmations for the same pair issued
STRICTLY more than 5 minutes apart both succeed (at exactly 5 minutes the
second is rejected, the window bound being inclusive). -/
theorem confirm_fresh_insert_and_strict_gap_pairs :
    (∀ (req : ConfirmRequest) (now : Int) (db : List AttendanceRecord),
      missingFields req = false →
      (∀ r ∈ db,
        matchesKey r (req.student_id.getD "") (req.room_id.getD "") = true →
        r.timestamp < now - 5 * 60 * 1000) →
      confirm req now db false false =
        (.created (mkRecord (req.student_id.getD "")
          (req.student_name.getD "") (req.room_id.getD "")
          req.confidence now),
         db ++ [mkRecord (req.student_id.getD "") (req.student_name.getD "")
          (req.room_id.getD "") req.confidence now],
         [.read, .write]) ∧
      (confirm req now db false false).1.status = 201) ∧
    (∀ (req : ConfirmRequest) (t1 t2 : Int),
      missingFields req = false → t1 + 5 * 60 * 1000 < t2 →
      (confirm req t1 [] false false).1.status = 201 ∧
      (confirm req t2 ((confirm req t1 [] false false).2.1)
        false false).1.status = 201) := by
  have hmain : ∀ (req : ConfirmRequest) (now : Int)
      (db : List AttendanceRecord),
      missingFields req = false →
      (∀ r ∈ db,
        matchesKey r (req.student_id.getD "") (req.room_id.getD "") = true →
        r.timestamp < now - 5 * 60 * 1000) →
      confirm req now db false false =
        (.created (mkRecord (req.student_id.getD "")
          (req.student_name.getD "") (req.room_id.getD "")
          req.confidence now),
         db ++ [mkRecord (req.student_id.getD "") (req.student_name.getD "")
          (req.room_id.getD "") req.confidence now],
         [.read, .write]) := by
    intro req now db hv hfresh
    rw [confirm_fresh_eq req now db false hv hfresh]
    simp [insertStep]
  refine ⟨fun req now db hv hfresh => ?_, fun req t1 t2 hv hgap => ?_⟩
  · exact ⟨hmain req now db hv hfresh, by rw [hmain req now db hv hfresh]; rfl⟩
  · have h1 := hmain req t1 [] hv (by simp)
    have h2 := hmain req t2 [mkRecord (req.student_id.getD "")
        (req.student_name.getD "") (req.room_id.getD "") req.confidence t1]
        hv ?_
    · refine ⟨by rw [h1]; rfl, ?_⟩
      have hdb1 : (confirm req t1 [] false false).2.1 =
          [mkRecord (req.student_id.getD "") (req.student_name.getD "")
            (req.room_id.getD "") req.confidence t1] := by
        rw [h1]; rfl
      rw [hdb1, h2]; rfl
    · intro r hr _
      rw [List.mem_singleton] at hr
      rw [hr]
      simp only [mkRecord]
      omega

/-- Witness for C1: with a gap of 300001 ms (strictly more than 5 minutes)
both confirmations succeed. -/
theorem confirm_fresh_insert_and_strict_gap_pairs_witness :
    missingFields ⟨some "S1", some "Alice", some "R1", none⟩ = false ∧
    ((0:Int) + 5 * 60 * 1000 < 300001) ∧
    (confirm ⟨some "S1", some "Alice", some "R1", none⟩ 300001
      ((confirm ⟨some "S1", some "Alice", some "R1", none⟩ 0 []
        false false).2.1) false false).1.status = 201 :=
  ⟨rfl, by norm_num,
   (confirm_fresh_insert_and_strict_gap_pairs.2
     ⟨some "S1", some "Alice", some "R1", none⟩ 0 300001 rfl
     (by norm_num)).2⟩

/-- Counterexample to C2 as stated: a pair of valid confirmations for the
same `(student_id, room_id)` issued 299999 ms apart (less than 5 minutes)
in which the SECOND call succeeds with 201.  The first call, at instant
300000, is rejected with 409 by a pre-existing record at instant 0 (still
inside its inclusive window); by the second call, at instant 599999, that
record has left the window, so the second call inserts and answers 201. -/
theorem confirm_pair_within_window_second_can_succeed :
    ((599999:Int) - 300000 < 5 * 60 * 1000) ∧
    (confirm ⟨some "S1", some "Alice", some "R1", none⟩ 300000
      [mkRecord "S1" "Alice" "R1" none 0] false false).1.status = 409 ∧
    (confirm ⟨some "S1", some "Alice", some "R1", none⟩ 599999
      ((confirm ⟨some "S1", some "Alice", some "R1", none⟩ 300000
        [mkRecord "S1" "Alice" "R1" none 0] false false).2.1)
      false false).1.status = 201 := by
  have hq1 : recentQuery [mkRecord "S1" "Alice" "R1" none 0] "S1" "R1" 0 =
      [mkRecord "S1" "Alice" "R1" none 0] := by
    simp [recentQuery, mkRecord, matchesKey]
  have h1 : confirm ⟨some "S1", some "Alice", some "R1", none⟩ 300000
      [mkRecord "S1" "Alice" "R1" none 0] false false =
      (.duplicate (mkRecord "S1" "Alice" "R1" none 0),
       [mkRecord "S1" "Alice" "R1" none 0], [.read]) := by
    simp [confirm, missingFields, strFalsy, hq1]
  have hq2 : recentQuery [mkRecord "S1" "Alice" "R1" none 0] "S1" "R1"
      299999 = [] := by
    simp [recentQuery, mkRecord, matchesKey]
  refine ⟨by norm_num, by rw [h1]; rfl, ?_⟩
  rw [h1]
  simp [confirm, missingFields, strFalsy, hq2, insertStep,
    ConfirmResponse.status]

/-- C2 (amended).  For every pair of confirmation calls with identical
`(student_id, room_id)` issued less than 5 minutes apart in which the FIRST
call succeeds with 201, the second call fails with DuplicateAttendance
(409) whose body carries a conflicting record — same key, timestamp inside
the second call's window — the rejected call performs zero writes, and the
ledger gains exactly one row from the pair.  (Without the first call
succeeding, a pre-existing conflict can reject the first call and let the
second one through; see the counterexample.) -/
theorem confirm_pair_within_window_second_duplicate (req : ConfirmRequest)
    (t1 t2 : Int) (db : List AttendanceRecord)
    (horder : t1 ≤ t2) (hlt : t2 - t1 < 5 * 60 * 1000)
    (hok : (confirm req t1 db false false).1.status = 201) :
    ∃ last,
      (confirm req t2 ((confirm req t1 db false false).2.1)
        false false).1 = .duplicate last ∧
      (confirm req t2 ((confirm req t1 db false false).2.1)
        false false).1.status = 409 ∧
      matchesKey last (req.student_id.getD "") (req.room_id.getD "") = true ∧
      t2 - 5 * 60 * 1000 ≤ last.timestamp ∧
      (confirm req t2 ((confirm req t1 db false false).2.1)
        false false).2.1 = (confirm req t1 db false false).2.1 ∧
      StorageOp.write ∉ (confirm req t2 ((confirm req t1 db false false).2.1)
        false false).2.2 ∧
      (confirm req t1 db false false).2.1 =
        db ++ [mkRecord (req.student_id.getD "") (req.student_name.getD "")
          (req.room_id.getD "") req.confidence t1] := by
  obtain ⟨hv, -, heval⟩ := confirm_status_201_inv req t1 db hok
  have hdb1 : (confirm req t1 db false false).2.1 =
      db ++ [mkRecord (req.student_id.getD "") (req.student_name.getD "")
        (req.room_id.getD "") req.confidence t1] := by
    rw [heval]
  rw [hdb1]
  set r1 := mkRecord (req.student_id.getD "") (req.student_name.getD "")
      (req.room_id.getD "") req.confidence t1 with hr1
  have hmem : r1 ∈ db ++ [r1] := by simp
  have hmatch : matchesKey r1 (req.student_id.getD "")
      (req.room_id.getD "") = true := by
    simp [hr1, mkRecord, matchesKey]
  have hwin : t2 - 300000 ≤ r1.timestamp := by
    simp only [hr1, mkRecord]
    omega
  have hne := @recentQuery_ne_nil (db ++ [r1]) (req.student_id.getD "")
    (req.room_id.getD "") (t2 - 300000) r1 hmem hmatch hwin
  rcases hq2 : recentQuery (db ++ [r1]) (req.student_id.getD "")
      (req.room_id.getD "") (t2 - 300000) with _ | ⟨last, l⟩
  · exact absurd hq2 hne
  · have hlast : last ∈ recentQuery (db ++ [r1]) (req.student_id.getD "")
        (req.room_id.getD "") (t2 - 300000) := by
      rw [hq2]; exact List.mem_cons_self last l
    obtain ⟨-, hlm, hlw⟩ := mem_recentQuery hlast
    refine ⟨last, ?_, ?_, hlm, by omega, ?_, ?_, rfl⟩ <;>
      simp [confirm, hv, hq2, ConfirmResponse.status]

/-- Witness for C2: the concrete scenario of the spec — two identical
requests 1 second apart; the first answers 201, the second 409. -/
theorem confirm_pair_within_window_second_duplicate_witness :
    ((0:Int) ≤ 1000) ∧ ((1000:Int) - 0 < 5 * 60 * 1000) ∧
    (confirm ⟨some "S1", some "Alice", some "R1", none⟩ 0 []
      false false).1.status = 201 ∧
    ∃ last,
      (confirm ⟨some "S1", some "Alice", some "R1", none⟩ 1000
        ((confirm ⟨some "S1", some "Alice", some "R1", none⟩ 0 []
          false false).2.1) false false).1 = .duplicate last := by
  have hok : (confirm ⟨some "S1", some "Alice", some "R1", none⟩ 0 []
      false false).1.status = 201 := by
    simp [confirm, missingFields, strFalsy, recentQuery, insertStep,
      ConfirmResponse.status]
  obtain ⟨last, hdup, -⟩ := confirm_pair_within_window_second_duplicate
    ⟨some "S1", some "Alice", some "R1", none⟩ 0 1000 []
    (by norm_num) (by norm_num) hok
  exact ⟨by norm_num, by norm_num, hok, last, hdup⟩

/-- Counterexample to C3 as stated: a persistence-layer failure that does
NOT surface as a 500 and does NOT prevent an insert.  When the
duplicate-check read fails (`checkFails = true`, the `checkError` branch of
lines 194–196), the handler merely logs the error and falls through to the
insert: on a valid request the caller receives 201 and a record IS
inserted, even though the storage layer failed. -/
theorem confirm_check_failure_still_inserts :
    (confirm ⟨some "S1", some "Alice", some "R1", none⟩ 0 []
      true false).1.status = 201 ∧
    (confirm ⟨some "S1", some "Alice", some "R1", none⟩ 0 []
      true false).2.1 = [mkRecord "S1" "Alice" "R1" none 0] := by
  constructor <;>
    simp [confirm, missingFields, strFalsy, insertStep,
      ConfirmResponse.status, mkRecord]

/-- C3 (amended).  A failure of the insert write surfaces as a
500-equivalent StorageError, no attendance record is inserted, and the
handler does not retry internally (the trace shows a single read and a
single write attempt).  A failure of the duplicate-check READ, however, is
only logged: the handler skips the duplicate check and proceeds with the
insert, which on success answers 201 and appends a record. -/
theorem confirm_storage_failure_semantics :
    (∀ (req : ConfirmRequest) (now : Int) (db : List AttendanceRecord),
      missingFields req = false →
      recentQuery db (req.student_id.getD "") (req.room_id.getD "")
        (now - 5 * 60 * 1000) = [] →
      confirm req now db false true = (.storageError, db, [.read, .write]) ∧
      (confirm req now db false true).1.status = 500) ∧
    (∀ (req : ConfirmRequest) (now : Int) (db : List AttendanceRecord),
      missingFields req = false →
      confirm req now db true true = (.storageError, db, [.read, .write]) ∧
      (confirm req now db true true).1.status = 500) ∧
    (∀ (req : ConfirmRequest) (now : Int) (db : List AttendanceRecord),
      missingFields req = false →
      confirm req now db true false =
        (.created (mkRecord (req.student_id.getD "")
          (req.student_name.getD "") (req.room_id.getD "")
          req.confidence now),
         db ++ [mkRecord (req.student_id.getD "") (req.student_name.getD "")
          (req.room_id.getD "") req.confidence now],
         [.read, .write]) ∧
      (confirm req now db true false).1.status = 201) := by
  refine ⟨fun req now db hv hq => ?_, fun req now db hv => ?_,
    fun req now db hv => ?_⟩
  · have hq' : recentQuery db (req.student_id.getD "") (req.room_id.getD "")
        (now - 300000) = [] := by norm_num at hq; exact hq
    have he : confirm req now db false true =
        (.storageError, db, [.read, .write]) := by
      simp [confirm, hv, hq', insertStep]
    exact ⟨he, by rw [he]; rfl⟩
  · have he : confirm req now db true true =
        (.storageError, db, [.read, .write]) := by
      simp [confirm, hv, insertStep]
    exact ⟨he, by rw [he]; rfl⟩
  · have he : confirm req now db true false =
        (.created (mkRecord (req.student_id.getD "")
          (req.student_name.getD "") (req.room_id.getD "")
          req.confidence now),
         db ++ [mkRecord (req.student_id.getD "") (req.student_name.getD "")
          (req.room_id.getD "") req.confidence now],
         [.read, .write]) := by
      simp [confirm, hv, insertStep]
    exact ⟨he, by rw [he]; rfl⟩

/-- Witness for C3: a rejected insert on a valid request answers 500 and
leaves the ledger unchanged. -/
theorem confirm_storage_failure_semantics_witness :
    missingFields ⟨some "S1", some "Alice", some "R1", none⟩ = false ∧
    recentQuery [] "S1" "R1" ((0:Int) - 5 * 60 * 1000) = [] ∧
    (confirm ⟨some "S1", some "Alice", some "R1", none⟩ 0 []
      false true).1.status = 500 :=
  ⟨rfl, by simp [recentQuery],
   (confirm_storage_failure_semantics.1
     ⟨some "S1", some "Alice", some "R1", none⟩ 0 [] rfl
     (by simp [recentQuery])).2⟩

end SmartAttendance
